import Mathlib

/-!
Shallow embedding of the vscode-acp agent-connection core:
the `ACPClient` connection/session state machine (`src/acp/client.ts`),
its permission auto-resolver and session-update dispatch callbacks, and
the stderr diagnostic classifier of `ChatViewProvider` (`src/views/chat.ts`).
-/

namespace ACP

/-- Connection states of the `ACPConnectionState` union type. -/
inductive ConnState where
  | disconnected
  | connecting
  | connected
  | error
deriving DecidableEq, Repr

/-- Mode state of a session (`SessionModeState` from the protocol SDK):
the current mode id plus the available mode ids. -/
structure SessionModeState where
  currentModeId : String
  availableModes : List String
deriving DecidableEq, Repr

/-- Model state of a session (`SessionModelState` from the protocol SDK). -/
structure SessionModelState where
  currentModelId : String
  availableModels : List String
deriving DecidableEq, Repr

/-- Available commands are opaque payloads for the client; we model each by its name. -/
abbrev AvailableCommand := String

/-- The `SessionMetadata` record of `client.ts`. -/
structure SessionMetadata where
  modes : Option SessionModeState
  models : Option SessionModelState
  commands : Option (List AvailableCommand)
deriving DecidableEq, Repr

/-- Mutable fields of `ACPClient` relevant to connection and session lifecycle.
Handles (`process`, `connection`) are modelled by their nullability
(`Option Unit`): the code only ever tests them against `null`. -/
structure ClientState where
  process : Option Unit
  connection : Option Unit
  state : ConnState
  currentSessionId : Option String
  sessionMetadata : Option SessionMetadata
  pendingCommands : Option (List AvailableCommand)
deriving DecidableEq, Repr

/-- Errors thrown by client operations, named after the spec error kinds. -/
inductive ACPError where
  | alreadyActive
  | agentUnavailable
  | initFailed
  | notConnected
  | noActiveSession
  | rpcError
deriving DecidableEq, Repr

/-- Model of `ACPClient.setState`: stores the state and notifies state-change listeners
only when the value changed.  The second component is the list of values
notified to every state-change subscriber (synchronously, in this order). -/
def setState (st : ClientState) (s : ConnState) : ClientState × List ConnState :=
  if st.state ≠ s then ({ st with state := s }, [s]) else (st, [])

/-- Model of `ACPClient.connect`.  Environment facts that the code consults are passed
as parameters: `skipAvailabilityCheck` (client option), `agentAvailable`
(result of `isAgentAvailable`), and `initOk` (whether the raced
`connection.initialize` handshake resolves rather than rejects).
Returns the new state, the state-change notifications emitted, and the
error thrown, if any. -/
def connect (skipAvailabilityCheck agentAvailable initOk : Bool) (st : ClientState) :
    ClientState × List ConnState × Option ACPError :=
  if st.state = .connected ∨ st.state = .connecting then
    (st, [], some .alreadyActive)
  else if !skipAvailabilityCheck && !agentAvailable then
    (st, [], some .agentUnavailable)
  else
    let r1 := setState st .connecting
    -- spawn: the process handle becomes non-null, stderr/error/exit handlers attach
    let st2 : ClientState := { r1.1 with process := some () }
    -- `new ClientSideConnection(...)`: the connection handle becomes non-null
    let st3 : ClientState := { st2 with connection := some () }
    if initOk then
      let r2 := setState st3 .connected
      (r2.1, r1.2 ++ r2.2, none)
    else
      -- the `catch` block: set state to error and rethrow; no handle cleanup
      let r2 := setState st3 .error
      (r2.1, r1.2 ++ r2.2, some .initFailed)

/-- Response shape of a successful `connection.newSession` request. -/
structure NewSessionResponse where
  sessionId : String
  modes : Option SessionModeState
  models : Option SessionModelState
deriving DecidableEq, Repr

/-- Model of `ACPClient.newSession`.  `resp` is the outcome of the RPC round trip
(`Except.error` when the agent rejects the request). -/
def newSession (resp : Except Unit NewSessionResponse) (st : ClientState) :
    ClientState × Option ACPError :=
  if st.connection = none then
    (st, some .notConnected)
  else
    match resp with
    | .error _ => (st, some .rpcError)
    | .ok r =>
        ({ st with
            currentSessionId := some r.sessionId
            sessionMetadata := some ⟨r.modes, r.models, st.pendingCommands⟩
            pendingCommands := none }, none)

/-- Model of `ACPClient.getSessionMetadata`. -/
def getSessionMetadata (st : ClientState) : Option SessionMetadata :=
  st.sessionMetadata

/-- Model of `ACPClient.setMode`.  `rpcOk` is whether the `setSessionMode` round trip
succeeds.  On success the cached current mode id is updated only when the
cached metadata has a non-null `modes` object. -/
def setMode (rpcOk : Bool) (modeId : String) (st : ClientState) :
    ClientState × Option ACPError :=
  if st.connection = none ∨ st.currentSessionId = none then
    (st, some .noActiveSession)
  else if !rpcOk then
    (st, some .rpcError)
  else
    match st.sessionMetadata with
    | some md =>
        match md.modes with
        | some ms =>
            ({ st with
                sessionMetadata := some { md with modes := some { ms with currentModeId := modeId } } },
             none)
        | none => (st, none)
    | none => (st, none)

/-- Model of `ACPClient.setModel`, symmetric to `setMode`. -/
def setModel (rpcOk : Bool) (modelId : String) (st : ClientState) :
    ClientState × Option ACPError :=
  if st.connection = none ∨ st.currentSessionId = none then
    (st, some .noActiveSession)
  else if !rpcOk then
    (st, some .rpcError)
  else
    match st.sessionMetadata with
    | some md =>
        match md.models with
        | some ms =>
            ({ st with
                sessionMetadata := some { md with models := some { ms with currentModelId := modelId } } },
             none)
        | none => (st, none)
    | none => (st, none)

/-- Model of `ACPClient.cancel`: silent no-op without an active session. -/
def cancel (rpcOk : Bool) (st : ClientState) : ClientState × Option ACPError :=
  if st.connection = none ∨ st.currentSessionId = none then
    (st, none)
  else if !rpcOk then (st, some .rpcError)
  else (st, none)

/-- Model of `ACPClient.dispose`: kill the process if present, null out all handles and
session state, and force a transition to `disconnected` (notifying only if
the state actually changes). -/
def dispose (st : ClientState) : ClientState × List ConnState :=
  let st1 : ClientState :=
    { st with process := none, connection := none, currentSessionId := none,
              sessionMetadata := none, pendingCommands := none }
  setState st1 .disconnected

/-- The `process.on("exit", ...)` handler: set state to `disconnected`,
then drop the connection and process handles.  Nothing else changes. -/
def onProcessExit (st : ClientState) : ClientState × List ConnState :=
  let r := setState st .disconnected
  ({ r.1 with connection := none, process := none }, r.2)

/-- The `process.on("error", ...)` handler: set state to `error`. -/
def onProcessError (st : ClientState) : ClientState × List ConnState :=
  setState st .error

/-- Model of `ACPClient.setAgent`: dispose first unless already disconnected. -/
def setAgent (st : ClientState) : ClientState × List ConnState :=
  if st.state ≠ .disconnected then dispose st else (st, [])

/-- Session-update notification payloads, discriminated as in the code by
their `sessionUpdate` tag.  Only `available_commands_update` mutates client
state; the other variants are carried for fidelity of the dispatch model. -/
inductive SessionUpdate where
  | agentMessageChunk (text : String)
  | availableCommandsUpdate (availableCommands : List AvailableCommand)
  | toolCall (toolCallId title : String)
  | toolCallUpdate (toolCallId status : String)
  | currentModeUpdate (currentModeId : String)
  | other (tag : String)
deriving DecidableEq, Repr

/-- State mutation performed by the `client.sessionUpdate` callback in
`ACPClient.connect`: an `available_commands_update` is written into
`sessionMetadata.commands` when metadata exists, and buffered into
`pendingCommands` otherwise; all other update kinds leave the state alone. -/
def applyUpdate (st : ClientState) (u : SessionUpdate) : ClientState :=
  match u with
  | .availableCommandsUpdate cmds =>
      match st.sessionMetadata with
      | some md => { st with sessionMetadata := some { md with commands := some cmds } }
      | none => { st with pendingCommands := some cmds }
  | _ => st

/-- Model of `this.sessionUpdateListeners.forEach((cb) => cb(params))` where a
listener may throw: listeners are abstract ids, `throws` says which ones
raise.  `forEach` invokes listeners in order and propagates the first raised
error immediately, so invocation stops right after the first throwing
listener.  Returns the listeners actually invoked and whether an error was
raised out of the loop. -/
def forEachUntilThrow (throws : Nat → Bool) : List Nat → List Nat × Bool
  | [] => ([], false)
  | l :: ls =>
      if throws l then ([l], true)
      else
        let r := forEachUntilThrow throws ls
        (l :: r.1, r.2)

/-- The `client.sessionUpdate` callback: mutate metadata/pending commands
(outside the `try`), then dispatch to the session-update listeners inside a
single `try`/`catch` that logs any raised error.  The result type has no
error component: the callback always returns normally to the agent.  The
`Bool` records whether an error was caught and logged. -/
def sessionUpdateCallback (throws : Nat → Bool) (listeners : List Nat)
    (st : ClientState) (u : SessionUpdate) : ClientState × List Nat × Bool :=
  let st1 := applyUpdate st u
  let r := forEachUntilThrow throws listeners
  (st1, r.1, r.2)

/-- Kinds of permission options offered by the agent. -/
inductive PermissionOptionKind where
  | allowOnce
  | allowAlways
  | rejectOnce
  | rejectAlways
deriving DecidableEq, Repr

/-- One option descriptor of a permission request. -/
structure PermissionOption where
  optionId : String
  kind : PermissionOptionKind
deriving DecidableEq, Repr

/-- Outcome shapes of a `RequestPermissionResponse`. -/
inductive RequestPermissionOutcome where
  | selected (optionId : String)
  | cancelled
deriving DecidableEq, Repr

/-- The test `opt.kind === "allow_once" || opt.kind === "allow_always"`. -/
def isAllowOption (o : PermissionOption) : Bool :=
  o.kind == .allowOnce || o.kind == .allowAlways

/-- The `client.requestPermission` callback: auto-approve with the first
allow-class option, else cancel. -/
def requestPermission (options : List PermissionOption) : RequestPermissionOutcome :=
  match options.find? isAllowOption with
  | some o => .selected o.optionId
  | none => .cancelled

deriving instance DecidableEq for Except

/-- Operations and asynchronous events driving an `ACPClient` instance.
RPC outcomes and environment checks are baked into the operation so a trace
is pure data. -/
inductive Op where
  | connect (skipAvailabilityCheck agentAvailable initOk : Bool)
  | newSession (resp : Except Unit NewSessionResponse)
  | setMode (rpcOk : Bool) (modeId : String)
  | setModel (rpcOk : Bool) (modelId : String)
  | cancel (rpcOk : Bool)
  | sessionUpdate (u : SessionUpdate)
  | processExit
  | processError
  | dispose
  | setAgent
deriving DecidableEq, Repr

/-- One step of the client: apply an operation or deliver an event, returning
the new state and the state-change notifications emitted.  Process events
require a live process handle (the handlers are attached to the spawned
process); session-update notifications arrive through the connection. -/
def stepN (st : ClientState) (op : Op) : ClientState × List ConnState :=
  match op with
  | .connect sk av ok => ((connect sk av ok st).1, (connect sk av ok st).2.1)
  | .newSession resp => ((newSession resp st).1, [])
  | .setMode ok m => ((setMode ok m st).1, [])
  | .setModel ok m => ((setModel ok m st).1, [])
  | .cancel ok => ((cancel ok st).1, [])
  | .sessionUpdate u => if st.connection.isSome then (applyUpdate st u, []) else (st, [])
  | .processExit => if st.process.isSome then onProcessExit st else (st, [])
  | .processError => if st.process.isSome then onProcessError st else (st, [])
  | .dispose => dispose st
  | .setAgent => setAgent st

/-- One step, state only. -/
def step (st : ClientState) (op : Op) : ClientState := (stepN st op).1

/-- Fresh client: everything null, state `disconnected`. -/
def initialState : ClientState := ⟨none, none, .disconnected, none, none, none⟩

/-- Run a trace from a given state, accumulating all state-change
notifications in order. -/
def runFrom (st : ClientState) : List Op → ClientState × List ConnState
  | [] => (st, [])
  | op :: ops =>
      let r := stepN st op
      let rest := runFrom r.1 ops
      (rest.1, r.2 ++ rest.2)

/-- Final state after a trace from the fresh client. -/
def run (ops : List Op) : ClientState := (runFrom initialState ops).1

/-- Full state-change notification log of a trace from the fresh client. -/
def traceLog (ops : List Op) : List ConnState := (runFrom initialState ops).2

/-- A state is reachable when some trace of operations produces it. -/
def Reachable (st : ClientState) : Prop := ∃ ops, run ops = st

/-! ## Diagnostic stream classifier (`ChatViewProvider.handleStderr`)

The classifier tests the accumulated stderr buffer against the JavaScript
regular expressions of `chat.ts`.  We embed a small backtracking matcher
faithful to JS semantics for the constructs those patterns use: literals,
character classes, greedy `*`/`+` over classes, greedy `?`, capture groups,
and unanchored leftmost search. -/

/-- Regular expressions over characters, restricted to the constructs used by
the patterns in `chat.ts`.  Quantifiers there are applied only to character
classes, except `?` which also wraps a group. -/
inductive RE where
  | eps
  | lit (c : Char)
  | cls (p : Char → Bool)
  | seq (r₁ r₂ : RE)
  | opt (r : RE)
  | starCls (p : Char → Bool)
  | plusCls (p : Char → Bool)
  | grp (i : Nat) (r : RE)

/-- Try continuations on `s.drop n`, `s.drop (n-1)`, ..., `s.drop 0`, in that
order (longest consumption first — greedy `*` over a class whose maximal run
has length `n`).  `i` is the current position, passed along so captures can
be recorded as positions. -/
def tryDrops (s : List Char) (i : Nat) (k : List Char → Nat → Option α) : Nat → Option α
  | 0 => k s i
  | n + 1 => (k (s.drop (n + 1)) (i + (n + 1))).orElse (fun _ => tryDrops s i k n)

/-- As `tryDrops` but stopping at one consumed character (greedy `+`). -/
def tryDropsPos (s : List Char) (i : Nat) (k : List Char → Nat → Option α) : Nat → Option α
  | 0 => none
  | 1 => k (s.drop 1) (i + 1)
  | n + 2 => (k (s.drop (n + 2)) (i + (n + 2))).orElse (fun _ => tryDropsPos s i k (n + 1))

/-- Backtracking matcher in continuation-passing style.  `i` is the position
relative to the start of this match attempt, `g` accumulates capture groups
as `(group, start, stop)` position triples; the continuation receives the
remaining input, the position and the captures.  Greedy quantifiers try the
longest consumption first, and `opt` tries the present alternative first,
matching JS backtracking order. -/
def mtch : RE → List Char → Nat → List (Nat × Nat × Nat) →
    (List Char → Nat → List (Nat × Nat × Nat) → Option (List (Nat × Nat × Nat))) →
    Option (List (Nat × Nat × Nat))
  | .eps, s, i, g, k => k s i g
  | .lit c, s, i, g, k =>
      match s with
      | [] => none
      | x :: xs => if x = c then k xs (i + 1) g else none
  | .cls p, s, i, g, k =>
      match s with
      | [] => none
      | x :: xs => if p x then k xs (i + 1) g else none
  | .seq r₁ r₂, s, i, g, k => mtch r₁ s i g (fun s2 i2 g2 => mtch r₂ s2 i2 g2 k)
  | .opt r, s, i, g, k => (mtch r s i g k).orElse (fun _ => k s i g)
  | .starCls p, s, i, g, k => tryDrops s i (fun s2 i2 => k s2 i2 g) (s.takeWhile p).length
  | .plusCls p, s, i, g, k => tryDropsPos s i (fun s2 i2 => k s2 i2 g) (s.takeWhile p).length
  | .grp j r, s, i, g, k => mtch r s i g (fun s2 i2 g2 => k s2 i2 ((j, i, i2) :: g2))

/-- Turn position-triple captures of a match attempt on `s` into the captured
substrings of `s`. -/
def materialize (s : List Char) (g : List (Nat × Nat × Nat)) : List (Nat × List Char) :=
  g.map (fun t => (t.1, (s.drop t.2.1).take (t.2.2 - t.2.1)))

/-- Unanchored leftmost search (JS `String.prototype.match` without the `g`
flag): try a match at each position from the left, returning the captured
substrings of the first successful one. -/
def findMatch (r : RE) : List Char → Option (List (Nat × List Char))
  | [] => (mtch r [] 0 [] (fun _ _ g => some g)).map (materialize [])
  | s@(_ :: xs) =>
      ((mtch r s 0 [] (fun _ _ g => some g)).map (materialize s)).orElse
        (fun _ => findMatch r xs)

/-- Value of capture group `i` (empty when the group did not participate). -/
def groupVal (g : List (Nat × List Char)) (i : Nat) : List Char :=
  match g.find? (fun p => p.1 == i) with
  | some p => p.2
  | none => []

/-- JS `\w`: ASCII letters, digits, underscore. -/
def isWordChar (c : Char) : Bool :=
  c.isAlphanum || c == '_'

/-- JS `\s`, restricted to its ASCII members. -/
def isSpaceChar (c : Char) : Bool :=
  c == ' ' || c == '\t' || c == '\n' || c == '\r' || c == '\x0b' || c == '\x0c'

/-- Sequence of literal characters. -/
def litStr (s : String) : RE :=
  s.data.foldr (fun c r => RE.seq (RE.lit c) r) RE.eps

/-- Sequence a list of regular expressions. -/
def seqList (rs : List RE) : RE :=
  rs.foldr RE.seq RE.eps

/-- The error pattern of `handleStderr`:
`(\w+Error):\s*(\w+)?\s*\n?\s*data:\s*\x7b([^\x7d]+)\x7d`
(braces written here with their codes).  Group 1 is the error-type name,
group 3 the text inside the braces. -/
def errRegex : RE :=
  seqList
    [ RE.grp 1 (RE.seq (RE.plusCls isWordChar) (litStr "Error")),
      RE.lit ':',
      RE.starCls isSpaceChar,
      RE.opt (RE.grp 2 (RE.plusCls isWordChar)),
      RE.starCls isSpaceChar,
      RE.opt (RE.lit '\n'),
      RE.starCls isSpaceChar,
      litStr "data:",
      RE.starCls isSpaceChar,
      RE.lit '\x7b',
      RE.grp 3 (RE.plusCls (fun c => c != '\x7d')),
      RE.lit '\x7d' ]

/-- The provider pattern `providerID:\s*"([^"]+)"`. -/
def providerRegex : RE :=
  seqList
    [ litStr "providerID:",
      RE.starCls isSpaceChar,
      RE.lit '\x22',
      RE.grp 1 (RE.plusCls (fun c => c != '\x22')),
      RE.lit '\x22' ]

/-- The model pattern `modelID:\s*"([^"]+)"`. -/
def modelRegex : RE :=
  seqList
    [ litStr "modelID:",
      RE.starCls isSpaceChar,
      RE.lit '\x22',
      RE.grp 1 (RE.plusCls (fun c => c != '\x22')),
      RE.lit '\x22' ]

/-- State touched by `ChatViewProvider.handleStderr`: the stderr buffer and,
as the observable effect, the list of `agentError` messages posted to the
webview so far. -/
structure ChatState where
  stderrBuffer : String
  agentErrors : List String
deriving DecidableEq, Repr

/-- Model of `ChatViewProvider.handleStderr`: append the chunk, classify, clear the
buffer on a match, then trim the buffer to its trailing 5000 characters when
it exceeds 10000. -/
def handleStderr (cs : ChatState) (text : String) : ChatState :=
  let buf := cs.stderrBuffer ++ text
  let r :=
    match findMatch errRegex buf.data with
    | some g =>
        let errorType := String.mk (groupVal g 1)
        let errorData := groupVal g 3
        let message :=
          match findMatch providerRegex errorData, findMatch modelRegex errorData with
          | some pg, some mg =>
              "Model not found: " ++ String.mk (groupVal pg 1) ++ "/" ++ String.mk (groupVal mg 1)
          | some _, none => "Agent error: " ++ errorType
          | none, some _ => "Agent error: " ++ errorType
          | none, none => "Agent error: " ++ errorType
        (("" : String), cs.agentErrors ++ [message])
    | none => (buf, cs.agentErrors)
  if r.1.length > 10000 then
    { stderrBuffer := String.mk (r.1.data.drop (r.1.data.length - 5000)), agentErrors := r.2 }
  else
    { stderrBuffer := r.1, agentErrors := r.2 }

/-! ## Proof-support definitions -/

/-- Dispatch of one state value to every state-change subscriber:
`this.stateChangeListeners.forEach((cb) => cb(state))`.  Subscribers are
abstract ids; the result lists the calls made, in order. -/
def notifySubscribers (ls : List Nat) (s : ConnState) : List (Nat × ConnState) :=
  ls.map (fun l => (l, s))

/-- Predicate `chainFrom s vs` says the notification list `vs`, read as successive new
state values starting from current state `s`, never repeats a value in two
consecutive positions (each notified value differs from the state it
replaces). -/
def chainFrom : ConnState → List ConnState → Prop
  | _, [] => True
  | s, v :: vs => s ≠ v ∧ chainFrom v vs

/-- Final state value after a notification list, starting from `s`. -/
def endOf : ConnState → List ConnState → ConnState
  | s, [] => s
  | _, v :: vs => endOf v vs

/-- Reading `currentModeId` out of the cached session metadata, as the view
layer does after `setMode`. -/
def cachedCurrentModeId (st : ClientState) : Option String :=
  match st.sessionMetadata with
  | some md =>
      match md.modes with
      | some ms => some ms.currentModeId
      | none => none
  | none => none

/-- State invariant that actually holds along every trace (see the C3
theorems): the process handle is null exactly in state `disconnected`, and a
non-null session id entails a live connection handle unless the state is
`disconnected` (the post-exit case). -/
def ClientInv (st : ClientState) : Prop :=
  (st.process = none ↔ st.state = .disconnected) ∧
  (st.currentSessionId.isSome → st.connection.isSome = true ∨ st.state = .disconnected)

/-- A run of `n` filler characters, for concrete buffer-bound scenarios. -/
def dots (n : Nat) : String := String.mk (List.replicate n '.')

/-- The end-to-end diagnostic line of the spec's testable property. -/
def fooDiag : String := "FooError: data: \x7bproviderID: \"acme\", modelID: \"x1\"\x7d"

/-- A diagnostic chunk that matches the error pattern. -/
def abErrChunk : String := "FooError: data: \x7bproviderID: \"a\", modelID: \"b\"\x7d"

/-! ## Theorems -/

/-- Lemma putting `setState` in branch-free form. -/
theorem setState_eq_ite (st : ClientState) (s : ConnState) :
    setState st s = if st.state = s then (st, []) else ({ st with state := s }, [s]) := by
  by_cases h : st.state = s <;> simp [setState, h]

/-- Frame lemma: `setMode` touches only the cached session metadata. -/
theorem setMode_frame (ok : Bool) (m : String) (st : ClientState) :
    (setMode ok m st).1.process = st.process ∧
    (setMode ok m st).1.connection = st.connection ∧
    (setMode ok m st).1.state = st.state ∧
    (setMode ok m st).1.currentSessionId = st.currentSessionId ∧
    (setMode ok m st).1.pendingCommands = st.pendingCommands := by
  unfold setMode
  split_ifs
  · exact ⟨rfl, rfl, rfl, rfl, rfl⟩
  · exact ⟨rfl, rfl, rfl, rfl, rfl⟩
  · rcases hmd : st.sessionMetadata with _ | md
    · simp [hmd]
    · rcases hms : md.modes with _ | ms <;> simp [hmd, hms]

/-- Frame lemma: `setModel` touches only the cached session metadata. -/
theorem setModel_frame (ok : Bool) (m : String) (st : ClientState) :
    (setModel ok m st).1.process = st.process ∧
    (setModel ok m st).1.connection = st.connection ∧
    (setModel ok m st).1.state = st.state ∧
    (setModel ok m st).1.currentSessionId = st.currentSessionId ∧
    (setModel ok m st).1.pendingCommands = st.pendingCommands := by
  unfold setModel
  split_ifs
  · exact ⟨rfl, rfl, rfl, rfl, rfl⟩
  · exact ⟨rfl, rfl, rfl, rfl, rfl⟩
  · rcases hmd : st.sessionMetadata with _ | md
    · simp [hmd]
    · rcases hms : md.models with _ | ms <;> simp [hmd, hms]

/-- Frame lemma: `cancel` never changes the client state. -/
theorem cancel_frame (ok : Bool) (st : ClientState) : (cancel ok st).1 = st := by
  unfold cancel
  split_ifs <;> rfl

/-- The session-update mutation touches only the cached metadata and the
pending-commands slot. -/
theorem applyUpdate_frame (st : ClientState) (u : SessionUpdate) :
    (applyUpdate st u).process = st.process ∧
    (applyUpdate st u).connection = st.connection ∧
    (applyUpdate st u).state = st.state ∧
    (applyUpdate st u).currentSessionId = st.currentSessionId := by
  cases u with
  | availableCommandsUpdate cmds =>
      rcases hmd : st.sessionMetadata with _ | md <;> simp [applyUpdate, hmd]
  | agentMessageChunk t => exact ⟨rfl, rfl, rfl, rfl⟩
  | toolCall a b => exact ⟨rfl, rfl, rfl, rfl⟩
  | toolCallUpdate a b => exact ⟨rfl, rfl, rfl, rfl⟩
  | currentModeUpdate a => exact ⟨rfl, rfl, rfl, rfl⟩
  | other t => exact ⟨rfl, rfl, rfl, rfl⟩

/-- Claim C6: for every sequence of `connect()` calls, a `connect()` invoked
while the state is `connecting` or `connected` fails with the AlreadyActive
error, produces no state transition, and notifies no subscriber. -/
theorem c6_connect_already_active (sk av ok : Bool) (st : ClientState)
    (h : st.state = ConnState.connecting ∨ st.state = ConnState.connected) :
    connect sk av ok st = (st, [], some ACPError.alreadyActive) := by
  rcases h with h | h <;> simp [connect, h]

/-- Witness for C6 at a concrete connected state. -/
theorem c6_witness :
    connect true true true ⟨some (), some (), ConnState.connected, none, none, none⟩ =
      (⟨some (), some (), ConnState.connected, none, none, none⟩, [],
        some ACPError.alreadyActive) :=
  c6_connect_already_active true true true _ (Or.inr rfl)

/-- Claim C9: the permission auto-resolver answers with the first option of
allow-once or allow-always kind selected; with a cancelled outcome when no
such option exists; and never with any other outcome. -/
theorem c9_request_permission (options : List PermissionOption) :
    ((∀ o ∈ options, isAllowOption o = false) →
        requestPermission options = RequestPermissionOutcome.cancelled) ∧
    (∀ l₁ o l₂, options = l₁ ++ o :: l₂ → (∀ x ∈ l₁, isAllowOption x = false) →
        isAllowOption o = true →
        requestPermission options = RequestPermissionOutcome.selected o.optionId) ∧
    (requestPermission options = RequestPermissionOutcome.cancelled ∨
      ∃ o ∈ options, isAllowOption o = true ∧
        requestPermission options = RequestPermissionOutcome.selected o.optionId) := by
  refine ⟨?_, ?_, ?_⟩
  · intro h
    have hf : options.find? isAllowOption = none :=
      List.find?_eq_none.mpr (fun x hx => by simp [h x hx])
    simp [requestPermission, hf]
  · intro l₁ o l₂ he h1 ho
    subst he
    have h0 : l₁.find? isAllowOption = none :=
      List.find?_eq_none.mpr (fun x hx => by simp [h1 x hx])
    have hf : (l₁ ++ o :: l₂).find? isAllowOption = some o := by
      rw [List.find?_append, h0]
      simp [List.find?, ho]
    simp [requestPermission, hf]
  · cases hf : options.find? isAllowOption with
    | none => exact Or.inl (by simp [requestPermission, hf])
    | some o =>
        exact Or.inr ⟨o, List.mem_of_find?_eq_some hf, List.find?_some hf,
          by simp [requestPermission, hf]⟩

/-- Witness for C9: a reject option followed by two allow options selects the
first allow option. -/
theorem c9_witness :
    requestPermission
        [⟨"reject-id", PermissionOptionKind.rejectOnce⟩,
         ⟨"allow-id", PermissionOptionKind.allowOnce⟩,
         ⟨"later-id", PermissionOptionKind.allowAlways⟩] =
      RequestPermissionOutcome.selected "allow-id" :=
  (c9_request_permission _).2.1 [⟨"reject-id", PermissionOptionKind.rejectOnce⟩]
    ⟨"allow-id", PermissionOptionKind.allowOnce⟩
    [⟨"later-id", PermissionOptionKind.allowAlways⟩] rfl (by decide) (by decide)

/-- Claim C5: an available-commands notification arriving while no session
metadata exists is buffered in the pending-commands slot; a subsequent
successful `newSession` produces metadata whose commands are the buffered
ones and whose modes and models come from the response, and clears the
slot. -/
theorem c5_pending_commands (st : ClientState) (cmds : List AvailableCommand)
    (resp : NewSessionResponse) (hmd : st.sessionMetadata = none)
    (hc : st.connection.isSome = true) :
    (step st (Op.sessionUpdate (SessionUpdate.availableCommandsUpdate cmds))).pendingCommands
        = some cmds ∧
    (step st (Op.sessionUpdate (SessionUpdate.availableCommandsUpdate cmds))).sessionMetadata
        = none ∧
    (newSession (Except.ok resp)
        (step st (Op.sessionUpdate (SessionUpdate.availableCommandsUpdate cmds)))).2 = none ∧
    (newSession (Except.ok resp)
          (step st (Op.sessionUpdate (SessionUpdate.availableCommandsUpdate cmds)))).1.sessionMetadata
        = some ⟨resp.modes, resp.models, some cmds⟩ ∧
    (newSession (Except.ok resp)
          (step st (Op.sessionUpdate (SessionUpdate.availableCommandsUpdate cmds)))).1.pendingCommands
        = none := by
  have hc2 : ¬ st.connection = none := by
    intro hn
    rw [hn] at hc
    simp at hc
  simp [step, stepN, hc, applyUpdate, hmd, newSession, hc2]

/-- Witness for C5: commands buffered on a fresh connection survive into the
metadata created by `newSession`. -/
theorem c5_witness :
    (newSession (Except.ok ⟨"s1", none, none⟩)
          (step (run [Op.connect true true true])
            (Op.sessionUpdate (SessionUpdate.availableCommandsUpdate ["deploy"])))).1.sessionMetadata
        = some ⟨none, none, some ["deploy"]⟩ ∧
    (newSession (Except.ok ⟨"s1", none, none⟩)
          (step (run [Op.connect true true true])
            (Op.sessionUpdate (SessionUpdate.availableCommandsUpdate ["deploy"])))).1.pendingCommands
        = none := by
  have h := c5_pending_commands (run [Op.connect true true true]) ["deploy"]
    ⟨"s1", none, none⟩ rfl rfl
  exact ⟨h.2.2.2.1, h.2.2.2.2⟩

/-- Counterexample to claim C4 as stated: on a session whose metadata has a
null modes state, `setMode("plan")` succeeds but reading the metadata does
not show `currentModeId == "plan"` (there is no current mode id at all). -/
theorem c4_counterexample :
    (setMode true "plan"
        (run [Op.connect true true true, Op.newSession (Except.ok ⟨"s1", none, none⟩)])).2
      = none ∧
    (run [Op.connect true true true,
        Op.newSession (Except.ok ⟨"s1", none, none⟩)]).currentSessionId = some "s1" ∧
    cachedCurrentModeId
        (setMode true "plan"
          (run [Op.connect true true true,
              Op.newSession (Except.ok ⟨"s1", none, none⟩)])).1 = none :=
  ⟨rfl, rfl, rfl⟩

/-- Claim C4 (amended): after every successful `setMode(m)` on an active
session whose cached metadata carries a non-null modes state, reading the
metadata immediately shows `currentModeId = m`, with no intervening
notification. -/
theorem c4_set_mode_round_trip (st : ClientState) (modeId : String)
    (md : SessionMetadata) (ms : SessionModeState)
    (hc : ¬ st.connection = none) (hs : ¬ st.currentSessionId = none)
    (hmd : st.sessionMetadata = some md) (hms : md.modes = some ms) :
    (setMode true modeId st).2 = none ∧
    cachedCurrentModeId (setMode true modeId st).1 = some modeId := by
  simp [setMode, hc, hs, hmd, hms, cachedCurrentModeId]

/-- Witness for C4 on a session created with a modes state. -/
theorem c4_witness :
    (setMode true "plan"
        (run [Op.connect true true true,
            Op.newSession (Except.ok ⟨"s1", some ⟨"default", ["default", "plan"]⟩, none⟩)])).2
      = none ∧
    cachedCurrentModeId
        (setMode true "plan"
          (run [Op.connect true true true,
              Op.newSession (Except.ok ⟨"s1", some ⟨"default", ["default", "plan"]⟩, none⟩)])).1
      = some "plan" :=
  c4_set_mode_round_trip _ "plan" ⟨some ⟨"default", ["default", "plan"]⟩, none, none⟩
    ⟨"default", ["default", "plan"]⟩ (by decide) (by decide) rfl rfl

/-- Claim C1, behavior of the code at the failing input: with subscribers 0
and 1 registered in that order and subscriber 0 throwing, the dispatch loop
invokes only subscriber 0 and the error is caught and logged once (the
callback returns normally, so nothing reaches the agent); subscriber 1,
though registered, never receives the notification. -/
theorem c1_dispatch_stops_at_thrower :
    (sessionUpdateCallback (fun l => l == 0) [0, 1] initialState
        (SessionUpdate.other "tool")).2 = ([0], true) := rfl

/-- Concatenating notification chains. -/
theorem chainFrom_append (a b : List ConnState) :
    ∀ s, chainFrom s a → chainFrom (endOf s a) b → chainFrom s (a ++ b) := by
  induction a with
  | nil => intro s _ hb; exact hb
  | cons v vs ih => intro s ha hb; exact ⟨ha.1, ih v ha.2 hb⟩

/-- Function `endOf` distributes over concatenation. -/
theorem endOf_append (a b : List ConnState) :
    ∀ s, endOf s (a ++ b) = endOf (endOf s a) b := by
  induction a with
  | nil => intro s; rfl
  | cons v vs ih => intro s; exact ih v

/-- Every notification emitted by `setState` differs from the state it
replaces, and the state afterwards is the last value notified. -/
theorem setState_chain (st : ClientState) (s : ConnState) :
    chainFrom st.state (setState st s).2 ∧
      endOf st.state (setState st s).2 = (setState st s).1.state := by
  by_cases h : st.state = s <;> simp [setState_eq_ite, h, chainFrom, endOf]

/-- Per step: the emitted notifications form a chain without immediate
repetition starting at the pre-state, and end at the post-state. -/
theorem stepN_chain (st : ClientState) (op : Op) :
    chainFrom st.state (stepN st op).2 ∧
      endOf st.state (stepN st op).2 = (stepN st op).1.state := by
  cases op with
  | connect sk av ok =>
      by_cases hc : st.state = ConnState.connected
      · simp [stepN, connect, hc, chainFrom, endOf]
      · by_cases hg : st.state = ConnState.connecting
        · simp [stepN, connect, hc, hg, chainFrom, endOf]
        · by_cases h2 : (!sk && !av) = true
          · simp [stepN, connect, hc, hg, h2, chainFrom, endOf]
          · cases ok <;>
              simp [stepN, connect, hc, hg, h2, setState_eq_ite, chainFrom, endOf]
  | newSession resp =>
      cases resp with
      | error e =>
          by_cases h : st.connection = none <;>
            simp [stepN, newSession, h, chainFrom, endOf]
      | ok r =>
          by_cases h : st.connection = none <;>
            simp [stepN, newSession, h, chainFrom, endOf]
  | setMode ok m =>
      exact ⟨trivial, ((setMode_frame ok m st).2.2.1).symm⟩
  | setModel ok m =>
      exact ⟨trivial, ((setModel_frame ok m st).2.2.1).symm⟩
  | cancel ok =>
      exact ⟨trivial, congrArg ClientState.state (cancel_frame ok st).symm⟩
  | sessionUpdate u =>
      by_cases h : st.connection.isSome = true
      · constructor
        · simp [stepN, h, chainFrom]
        · simp only [stepN, h, if_true, reduceIte]
          exact ((applyUpdate_frame st u).2.2.1).symm
      · simp [stepN, h, chainFrom, endOf]
  | processExit =>
      by_cases hp : st.process.isSome = true
      · by_cases hd : st.state = ConnState.disconnected <;>
          simp [stepN, hp, onProcessExit, setState_eq_ite, hd, chainFrom, endOf]
      · simp [stepN, hp, chainFrom, endOf]
  | processError =>
      by_cases hp : st.process.isSome = true
      · by_cases he : st.state = ConnState.error <;>
          simp [stepN, hp, onProcessError, setState_eq_ite, he, chainFrom, endOf]
      · simp [stepN, hp, chainFrom, endOf]
  | dispose =>
      by_cases hd : st.state = ConnState.disconnected <;>
        simp [stepN, dispose, setState_eq_ite, hd, chainFrom, endOf]
  | setAgent =>
      by_cases hs : st.state = ConnState.disconnected
      · simp [stepN, setAgent, hs, chainFrom, endOf]
      · by_cases hd : st.state = ConnState.disconnected <;>
          simp [stepN, setAgent, dispose, setState_eq_ite, hs, hd, chainFrom, endOf]

/-- Along a whole trace, the notification log is a chain without immediate
repetition from the start state, ending at the final state. -/
theorem runFrom_chain (ops : List Op) : ∀ st : ClientState,
    chainFrom st.state (runFrom st ops).2 ∧
      endOf st.state (runFrom st ops).2 = (runFrom st ops).1.state := by
  induction ops with
  | nil => intro st; exact ⟨trivial, rfl⟩
  | cons op rest ih =>
      intro st
      have h1 := stepN_chain st op
      have h2 := ih (stepN st op).1
      constructor
      · exact chainFrom_append _ _ _ h1.1 (by rw [h1.2]; exact h2.1)
      · show endOf st.state ((stepN st op).2 ++ (runFrom (stepN st op).1 rest).2) = _
        rw [endOf_append, h1.2]
        exact h2.2

/-- Each subscriber in a duplicate-free listener set is called exactly once
per dispatched state value. -/
theorem count_notifySubscribers (s : ConnState) :
    ∀ ls : List Nat, ls.Nodup → ∀ l ∈ ls, (notifySubscribers ls s).count (l, s) = 1 := by
  intro ls
  induction ls with
  | nil => intro _ l hl; cases hl
  | cons x xs ih =>
      intro hnd l hl
      have hx : x ∉ xs := (List.nodup_cons.mp hnd).1
      have hnd2 : xs.Nodup := (List.nodup_cons.mp hnd).2
      rcases List.mem_cons.mp hl with h | h
      · subst h
        have hz : (notifySubscribers xs s).count (l, s) = 0 := by
          rw [List.count_eq_zero]
          intro hmem
          rcases List.mem_map.mp hmem with ⟨y, hy, hyeq⟩
          have : y = l := by injection hyeq
          subst this
          exact hx hy
        simp only [notifySubscribers] at hz
        simp [notifySubscribers, List.count_cons, hz]
      · have hxl : x ≠ l := fun he => hx (he ▸ h)
        have hcount := ih hnd2 l h
        simp [notifySubscribers, List.count_cons, hxl] at hcount ⊢
        simpa [notifySubscribers] using hcount

/-- Claim C2 (amended): a successful `connect()` notifies exactly
`connecting` then `connected`; a `connect()` failing at the handshake (after
passing the already-active guard and the availability check) notifies
exactly `connecting` then `error`; a `connect()` rejected by those two
checks changes nothing and notifies nothing.  `setState` notifies exactly
when the value changes, with the new value, once per registered subscriber;
and along every trace the notification log never repeats a value in two
consecutive positions, so no subscriber ever sees a repeated identical
state. -/
theorem c2_transition_sequences :
    (∀ (sk av ok : Bool) (st : ClientState),
        ((connect sk av ok st).2.2 = none →
          (connect sk av ok st).2.1 = [ConnState.connecting, ConnState.connected]) ∧
        ((connect sk av ok st).2.2 = some ACPError.initFailed →
          (connect sk av ok st).2.1 = [ConnState.connecting, ConnState.error]) ∧
        ((connect sk av ok st).2.2 = some ACPError.alreadyActive ∨
            (connect sk av ok st).2.2 = some ACPError.agentUnavailable →
          (connect sk av ok st).1 = st ∧ (connect sk av ok st).2.1 = [])) ∧
    (∀ (st : ClientState) (s : ConnState),
        (setState st s).2 = if st.state = s then [] else [s]) ∧
    (∀ (ls : List Nat) (s : ConnState) (l : Nat), ls.Nodup → l ∈ ls →
        (notifySubscribers ls s).count (l, s) = 1) ∧
    (∀ ops : List Op, chainFrom ConnState.disconnected (traceLog ops)) := by
  refine ⟨?_, ?_, ?_, ?_⟩
  · intro sk av ok st
    by_cases hc : st.state = ConnState.connected
    · simp [connect, hc]
    · by_cases hg : st.state = ConnState.connecting
      · simp [connect, hc, hg]
      · by_cases h2 : (!sk && !av) = true
        · simp [connect, hc, hg, h2]
        · cases ok <;> simp [connect, hc, hg, h2, setState_eq_ite]
  · intro st s
    by_cases h : st.state = s <;> simp [setState_eq_ite, h]
  · intro ls s l hnd hl
    exact count_notifySubscribers s ls hnd l hl
  · intro ops
    exact (runFrom_chain ops initialState).1

/-- Witness for C2: a successful connect from the fresh client notifies
exactly `connecting` then `connected`, and a two-subscriber duplicate-free
set receives each value exactly once. -/
theorem c2_witness :
    (connect true true true initialState).2.1 = [ConnState.connecting, ConnState.connected] ∧
    (notifySubscribers [0, 1] ConnState.connected).count (0, ConnState.connected) = 1 :=
  ⟨(c2_transition_sequences.1 true true true initialState).1 rfl,
   c2_transition_sequences.2.2.1 [0, 1] ConnState.connected 0 (by decide) (by decide)⟩

/-- Counterexample to claim C2 as stated: a `connect()` issued in the
reachable `connected` state fails, yet notifies nothing — not the sequence
`disconnected → connecting → error` the claim requires of every failed
connect. -/
theorem c2_counterexample :
    Reachable (run [Op.connect true true true]) ∧
    (connect true true true (run [Op.connect true true true])).2.2
      = some ACPError.alreadyActive ∧
    (connect true true true (run [Op.connect true true true])).2.1 = [] :=
  ⟨⟨[Op.connect true true true], rfl⟩, rfl, rfl⟩

/-- The fresh client satisfies the invariant. -/
theorem initial_inv : ClientInv initialState := by
  constructor <;> simp [initialState]

/-- Invariant `ClientInv` only looks at four fields. -/
theorem inv_of_frame (st st2 : ClientState)
    (hp : st2.process = st.process) (hc : st2.connection = st.connection)
    (hs : st2.state = st.state) (hid : st2.currentSessionId = st.currentSessionId)
    (h : ClientInv st) : ClientInv st2 := by
  unfold ClientInv
  rw [hp, hc, hs, hid]
  exact h

/-- Operation `dispose` always restores the invariant. -/
theorem dispose_inv (st : ClientState) : ClientInv (dispose st).1 := by
  by_cases hd : st.state = ConnState.disconnected <;>
    simp [dispose, setState_eq_ite, hd, ClientInv]

/-- Every step preserves the invariant. -/
theorem step_inv (st : ClientState) (op : Op) (h : ClientInv st) : ClientInv (step st op) := by
  obtain ⟨h1, h2⟩ := h
  cases op with
  | connect sk av ok =>
      by_cases hc : st.state = ConnState.connected
      · simpa [step, stepN, connect, hc] using ⟨h1, h2⟩
      · by_cases hg : st.state = ConnState.connecting
        · simpa [step, stepN, connect, hc, hg] using ⟨h1, h2⟩
        · by_cases h3 : (!sk && !av) = true
          · simpa [step, stepN, connect, hc, hg, h3] using ⟨h1, h2⟩
          · cases ok <;>
              simp [step, stepN, connect, hc, hg, h3, setState_eq_ite, ClientInv]
  | newSession resp =>
      cases resp with
      | error e =>
          by_cases hn : st.connection = none <;>
            simpa [step, stepN, newSession, hn] using ⟨h1, h2⟩
      | ok r =>
          by_cases hn : st.connection = none
          · simpa [step, stepN, newSession, hn] using ⟨h1, h2⟩
          · refine ⟨?_, ?_⟩
            · simpa [step, stepN, newSession, hn] using h1
            · intro _
              exact Or.inl (by simpa [step, stepN, newSession, hn] using
                Option.isSome_iff_ne_none.mpr hn)
  | setMode ok m =>
      have hf := setMode_frame ok m st
      exact inv_of_frame st _ hf.1 hf.2.1 hf.2.2.1 hf.2.2.2.1 ⟨h1, h2⟩
  | setModel ok m =>
      have hf := setModel_frame ok m st
      exact inv_of_frame st _ hf.1 hf.2.1 hf.2.2.1 hf.2.2.2.1 ⟨h1, h2⟩
  | cancel ok =>
      exact inv_of_frame st _ (congrArg ClientState.process (cancel_frame ok st))
        (congrArg ClientState.connection (cancel_frame ok st))
        (congrArg ClientState.state (cancel_frame ok st))
        (congrArg ClientState.currentSessionId (cancel_frame ok st)) ⟨h1, h2⟩
  | sessionUpdate u =>
      by_cases hn : st.connection.isSome = true
      · have hf := applyUpdate_frame st u
        have : step st (Op.sessionUpdate u) = applyUpdate st u := by
          simp [step, stepN, hn]
        rw [this]
        exact inv_of_frame st _ hf.1 hf.2.1 hf.2.2.1 hf.2.2.2 ⟨h1, h2⟩
      · simpa [step, stepN, hn] using ⟨h1, h2⟩
  | processExit =>
      by_cases hp : st.process.isSome = true
      · by_cases hd : st.state = ConnState.disconnected <;>
          simp [step, stepN, hp, onProcessExit, setState_eq_ite, hd, ClientInv]
      · simpa [step, stepN, hp] using ⟨h1, h2⟩
  | processError =>
      by_cases hp : st.process.isSome = true
      · by_cases he : st.state = ConnState.error
        · simpa [step, stepN, hp, onProcessError, setState_eq_ite, he] using ⟨h1, h2⟩
        · refine ⟨?_, ?_⟩
          · have hnn : st.process ≠ none := Option.isSome_iff_ne_none.mp hp
            simp [step, stepN, hp, onProcessError, setState_eq_ite, he, hnn]
          · have hstep : step st Op.processError = { st with state := ConnState.error } := by
              simp [step, stepN, hp, onProcessError, setState_eq_ite, he]
            rw [hstep]
            intro hsid
            rcases h2 hsid with hcs | hds
            · exact Or.inl hcs
            · exfalso
              have hpn : st.process = none := h1.mpr hds
              rw [hpn] at hp
              simp at hp
      · simpa [step, stepN, hp] using ⟨h1, h2⟩
  | dispose =>
      exact dispose_inv st
  | setAgent =>
      by_cases hs : st.state = ConnState.disconnected
      · simpa [step, stepN, setAgent, hs] using ⟨h1, h2⟩
      · have : step st Op.setAgent = (dispose st).1 := by simp [step, stepN, setAgent, hs]
        rw [this]
        exact dispose_inv st

/-- The invariant holds after any trace from any invariant-satisfying
start. -/
theorem runFrom_inv (ops : List Op) : ∀ st, ClientInv st → ClientInv (runFrom st ops).1 := by
  induction ops with
  | nil => intro st h; exact h
  | cons op rest ih =>
      intro st h
      exact ih (stepN st op).1 (step_inv st op h)

/-- Counterexample to claim C3 as stated: after a successful connect, a
session, and a process exit, the session id is still non-null while the
state is `disconnected`, and this state is reachable. -/
theorem c3_counterexample :
    Reachable (run [Op.connect true true true, Op.newSession (Except.ok ⟨"s1", none, none⟩),
        Op.processExit]) ∧
    (run [Op.connect true true true, Op.newSession (Except.ok ⟨"s1", none, none⟩),
        Op.processExit]).currentSessionId = some "s1" ∧
    (run [Op.connect true true true, Op.newSession (Except.ok ⟨"s1", none, none⟩),
        Op.processExit]).state = ConnState.disconnected :=
  ⟨⟨[Op.connect true true true, Op.newSession (Except.ok ⟨"s1", none, none⟩),
      Op.processExit], rfl⟩, rfl, rfl⟩

/-- Claim C3 (amended): in every reachable state the process handle is null
iff the state is `disconnected`; a non-null session handle does not imply
state `connected` (it survives process exit and process error), but it does
imply that the connection handle is non-null or the state is
`disconnected`. -/
theorem c3_invariant : ∀ ops : List Op, ClientInv (run ops) :=
  fun ops => runFrom_inv ops initialState initial_inv

/-- Witness for C3 at a concrete post-exit trace. -/
theorem c3_invariant_witness :
    ClientInv (run [Op.connect true true true, Op.newSession (Except.ok ⟨"s1", none, none⟩),
        Op.processExit]) :=
  c3_invariant _

/-- Claim C10: a process exit changes exactly the state (to `disconnected`),
the process handle and the connection handle (to null); the session id, the
session metadata and the pending-commands slot keep their values, so
`getSessionMetadata` still returns the pre-exit metadata while the state is
`disconnected`; and from the post-exit state every operation other than
`dispose` and `newSession` leaves those three fields untouched. -/
theorem c10_exit_frame (st : ClientState) (hp : st.process.isSome = true) :
    step st Op.processExit =
      { st with state := ConnState.disconnected, process := none, connection := none } ∧
    getSessionMetadata (step st Op.processExit) = getSessionMetadata st ∧
    (∀ op : Op, op ≠ Op.dispose → (∀ r, op ≠ Op.newSession r) →
        (step (step st Op.processExit) op).currentSessionId
            = (step st Op.processExit).currentSessionId ∧
        (step (step st Op.processExit) op).sessionMetadata
            = (step st Op.processExit).sessionMetadata ∧
        (step (step st Op.processExit) op).pendingCommands
            = (step st Op.processExit).pendingCommands) := by
  obtain ⟨p, c, s, sid, md, pc⟩ := st
  have hstep : step ⟨p, c, s, sid, md, pc⟩ Op.processExit =
      ⟨none, none, ConnState.disconnected, sid, md, pc⟩ := by
    by_cases hd : s = ConnState.disconnected <;>
      simp [step, stepN, hp, onProcessExit, setState_eq_ite, hd]
  refine ⟨by rw [hstep], by rw [hstep]; rfl, ?_⟩
  intro op hnd hns
  rw [hstep]
  cases op with
  | connect sk av ok =>
      by_cases h3 : (!sk && !av) = true
      · simp [step, stepN, connect, h3]
      · cases ok <;> simp [step, stepN, connect, h3, setState_eq_ite]
  | newSession r => exact absurd rfl (hns r)
  | setMode ok m => simp [step, stepN, setMode]
  | setModel ok m => simp [step, stepN, setModel]
  | cancel ok => simp [step, stepN, cancel]
  | sessionUpdate u => simp [step, stepN]
  | processExit => simp [step, stepN]
  | processError => simp [step, stepN]
  | dispose => exact absurd rfl hnd
  | setAgent => simp [step, stepN, setAgent]

/-- Witness for C10 after a concrete connect and session. -/
theorem c10_witness :
    step (run [Op.connect true true true, Op.newSession (Except.ok ⟨"s1", none, none⟩)])
        Op.processExit
      = ⟨none, none, ConnState.disconnected, some "s1", some ⟨none, none, none⟩, none⟩ ∧
    (step (step (run [Op.connect true true true,
            Op.newSession (Except.ok ⟨"s1", none, none⟩)]) Op.processExit)
        (Op.setMode true "plan")).sessionMetadata = some ⟨none, none, none⟩ := by
  have h := c10_exit_frame
    (run [Op.connect true true true, Op.newSession (Except.ok ⟨"s1", none, none⟩)]) rfl
  constructor
  · rw [h.1]; rfl
  · have h5 := h.2.2 (Op.setMode true "plan") (by decide) (fun r hr => Op.noConfusion hr)
    rw [h5.2.1, h.1]; rfl

/-- Claim C7: whenever the appended buffer matches the error pattern, the
classifier clears the buffer and posts `Model not found: {provider}/{model}`
when both `providerID` and `modelID` fields are present in the matched data
text, and `Agent error: {ErrorType}` otherwise. -/
theorem c7_classifier (cs : ChatState) (text : String) (g : List (Nat × List Char))
    (h : findMatch errRegex (cs.stderrBuffer ++ text).data = some g) :
    (handleStderr cs text).stderrBuffer = "" ∧
    (∀ pg mg, findMatch providerRegex (groupVal g 3) = some pg →
        findMatch modelRegex (groupVal g 3) = some mg →
        (handleStderr cs text).agentErrors = cs.agentErrors ++
          ["Model not found: " ++ String.mk (groupVal pg 1) ++ "/"
            ++ String.mk (groupVal mg 1)]) ∧
    ((findMatch providerRegex (groupVal g 3) = none ∨
        findMatch modelRegex (groupVal g 3) = none) →
      (handleStderr cs text).agentErrors = cs.agentErrors ++
        ["Agent error: " ++ String.mk (groupVal g 1)]) := by
  rw [String.data_append] at h
  refine ⟨?_, ?_, ?_⟩
  · simp [handleStderr, h]
  · intro pg mg hp hm
    simp [handleStderr, h, hp, hm]
  · intro hor
    rcases hor with hp | hm
    · cases hm2 : findMatch modelRegex (groupVal g 3) <;>
        simp [handleStderr, h, hp, hm2]
    · cases hp2 : findMatch providerRegex (groupVal g 3) <;>
        simp [handleStderr, h, hp2, hm]

/-- Witness for C7: the spec's end-to-end diagnostic line classifies to
`Model not found: acme/x1` and clears the buffer. -/
theorem c7_witness :
    (handleStderr ⟨"", []⟩ fooDiag).stderrBuffer = "" ∧
    (handleStderr ⟨"", []⟩ fooDiag).agentErrors = ["Model not found: acme/x1"] := by
  have h := c7_classifier ⟨"", []⟩ fooDiag
    [(3, "providerID: \"acme\", modelID: \"x1\"".data), (1, "FooError".data)] rfl
  refine ⟨h.1, ?_⟩
  have h2 := h.2.1 [(1, "acme".data)] [(1, "x1".data)] rfl rfl
  rw [h2]
  rfl

/-- Claim C8 (amended): after every observation the buffer holds at most
10000 characters; when appending makes the accumulated text exceed 10000
characters and the error pattern does not match, exactly the trailing 5000
characters are retained (when the pattern matches, the buffer is cleared
instead — see the counterexample). -/
theorem c8_buffer_bound (cs : ChatState) (text : String) :
    (handleStderr cs text).stderrBuffer.length ≤ 10000 ∧
    (findMatch errRegex (cs.stderrBuffer ++ text).data = none →
      10000 < (cs.stderrBuffer ++ text).length →
      (handleStderr cs text).stderrBuffer =
        String.mk ((cs.stderrBuffer ++ text).data.drop
          ((cs.stderrBuffer ++ text).data.length - 5000))) := by
  constructor
  · cases hm : findMatch errRegex (cs.stderrBuffer.data ++ text.data) with
    | some g => simp [handleStderr, hm]
    | none =>
        by_cases hl : 10000 < cs.stderrBuffer.length + text.length
        · simp [handleStderr, hm, hl, String.length_mk, List.length_drop]
          omega
        · simp [handleStderr, hm, hl]
          omega
  · intro hm hl
    rw [String.data_append] at hm
    rw [String.length_append] at hl
    simp [handleStderr, hm, hl]

/-- The error pattern never matches a run of filler dots (its first atom
needs a word character). -/
theorem errRegex_no_match_dots : ∀ n, findMatch errRegex (List.replicate n '.') = none := by
  intro n
  induction n with
  | zero => rfl
  | succ k ih =>
      have hw : isWordChar '.' = false := rfl
      rw [List.replicate_succ]
      simp [findMatch, errRegex, seqList, litStr, mtch, List.takeWhile_cons, hw,
        tryDropsPos, Option.orElse]
      exact ih

/-- Witness for C8: an 11000-dot accumulation (no match) is trimmed to
exactly its trailing 5000 characters. -/
theorem c8_witness :
    10000 < (dots 6000 ++ dots 5000).length ∧
    (handleStderr ⟨dots 6000, []⟩ (dots 5000)).stderrBuffer =
      String.mk ((dots 6000 ++ dots 5000).data.drop
        ((dots 6000 ++ dots 5000).data.length - 5000)) ∧
    String.mk ((dots 6000 ++ dots 5000).data.drop
        ((dots 6000 ++ dots 5000).data.length - 5000)) = dots 5000 := by
  have hproj : ((⟨dots 6000, []⟩ : ChatState).stderrBuffer ++ dots 5000)
      = dots 6000 ++ dots 5000 := rfl
  have hdata : (dots 6000 ++ dots 5000).data = List.replicate 11000 '.' := by
    rw [String.data_append]
    show List.replicate 6000 '.' ++ List.replicate 5000 '.' = _
    rw [← List.replicate_add]
  have hnone : findMatch errRegex
      ((⟨dots 6000, []⟩ : ChatState).stderrBuffer ++ dots 5000).data = none := by
    rw [hproj, hdata]
    exact errRegex_no_match_dots 11000
  have hlen : 10000 < ((⟨dots 6000, []⟩ : ChatState).stderrBuffer ++ dots 5000).length := by
    rw [hproj]
    show 10000 < (dots 6000 ++ dots 5000).data.length
    rw [hdata, List.length_replicate]
    omega
  have hmain := (c8_buffer_bound ⟨dots 6000, []⟩ (dots 5000)).2 hnone hlen
  rw [hproj] at hmain
  refine ⟨?_, hmain, ?_⟩
  · show 10000 < (dots 6000 ++ dots 5000).data.length
    rw [hdata, List.length_replicate]
    omega
  · rw [hdata, List.length_replicate, List.drop_replicate]
    norm_num [dots]

/-- Counterexample to claim C8 as stated: a chunk that both matches the
error pattern and pushes the accumulation over 10000 characters leaves an
empty buffer, not the trailing 5000 characters the claim requires. -/
theorem c8_counterexample :
    10000 < (abErrChunk ++ dots 9960).length ∧
    (handleStderr ⟨"", []⟩ (abErrChunk ++ dots 9960)).stderrBuffer = "" ∧
    (handleStderr ⟨"", []⟩ (abErrChunk ++ dots 9960)).stderrBuffer ≠
      String.mk ((abErrChunk ++ dots 9960).data.drop
        ((abErrChunk ++ dots 9960).data.length - 5000)) := by
  have hlen : (abErrChunk ++ dots 9960).length = 10007 := by
    rw [String.length_append]
    have h1 : abErrChunk.length = 47 := rfl
    have h2 : (dots 9960).length = 9960 := List.length_replicate 9960 '.'
    omega
  have hdata : (abErrChunk ++ dots 9960).data
      = abErrChunk.data ++ List.replicate 9960 '.' := by
    rw [String.data_append]
    rfl
  have hdlen : (abErrChunk ++ dots 9960).data.length = 10007 := by
    rw [hdata, List.length_append, List.length_replicate]
    rfl
  refine ⟨by omega, rfl, ?_⟩
  rw [show (handleStderr ⟨"", []⟩ (abErrChunk ++ dots 9960)).stderrBuffer = "" from rfl]
  intro heq
  have h0 := congrArg String.length heq
  rw [String.length_mk ((abErrChunk ++ dots 9960).data.drop
      ((abErrChunk ++ dots 9960).data.length - 5000))] at h0
  rw [List.length_drop, hdlen] at h0
  have h00 : ("" : String).length = 0 := rfl
  rw [h00] at h0
  omega

end ACP
